import Mathlib

/-
Verification of `pybamm/models/lead_acid/composite.py` (lead-acid Composite
model). The file under verification defines one class, `Composite`, whose
constructor instantiates two submodels, merges their variable dictionaries,
derives the composite potential and voltage expressions symbolically, and
stores a fixed default parameter set.

The symbolic expression graph, the submodels and the parameter machinery live
in the surrounding framework, outside the file. They are modelled here as an
expression datatype with named atoms, association-list dictionaries, and
opaque records, following the design specification of the file.
-/

namespace LeadAcidComposite

/-- Modelled from the spec: the framework's symbolic expression trees
("scalars, spatial variables, integrals, concatenations", plus the arithmetic
nodes, applied named functions and named parameters the file builds with).
Each pybamm node kind used by `composite.py` is one constructor. -/
inductive Expr where
  | scalar : Int → Expr
  | spatialVar : String → List String → Expr
  | param : String → Expr
  | add : Expr → Expr → Expr
  | sub : Expr → Expr → Expr
  | mul : Expr → Expr → Expr
  | div : Expr → Expr → Expr
  | neg : Expr → Expr
  | pow : Expr → Expr → Expr
  | integral : Expr → Expr → Expr
  | concat : Expr → Expr → Expr → Expr
  | func : String → Expr → Expr
  | fn1 : String → Expr → Expr
  | fn2 : String → Expr → Expr → Expr
deriving DecidableEq, Repr

instance : Add Expr := ⟨Expr.add⟩
instance : Sub Expr := ⟨Expr.sub⟩
instance : Mul Expr := ⟨Expr.mul⟩
instance : Div Expr := ⟨Expr.div⟩
instance : Neg Expr := ⟨Expr.neg⟩
instance : Pow Expr Nat := ⟨fun e k => Expr.pow e (Expr.scalar (Int.ofNat k))⟩

instance (n : Nat) : OfNat Expr n := ⟨Expr.scalar (Int.ofNat n)⟩

/-- Modelled from the spec: a pybamm node's list of children, as used by the
`eps0.children` access in the constructor. -/
def children : Expr → List Expr
  | .scalar _ => []
  | .spatialVar _ _ => []
  | .param _ => []
  | .add a b => [a, b]
  | .sub a b => [a, b]
  | .mul a b => [a, b]
  | .div a b => [a, b]
  | .neg a => [a]
  | .pow a b => [a, b]
  | .integral a b => [a, b]
  | .concat a b c => [a, b, c]
  | .func _ a => [a]
  | .fn1 _ a => [a]
  | .fn2 _ a b => [a, b]

/-- The Python unpacking `eps_0n, eps_0s, eps_0p = eps0.children` succeeds
exactly when the node has three children; otherwise the constructor fails. -/
def children3 (e : Expr) : Option (Expr × Expr × Expr) :=
  match children e with
  | [a, b, c] => some (a, b, c)
  | _ => none

/-- A variable dictionary: mapping from variable name to expression. -/
abbrev VarMap : Type := List (String × Expr)

/-- Dictionary lookup (Python `d[key]`): first matching entry wins, so that
an update that prepends entries lets later updates override earlier ones. -/
def getVar : VarMap → String → Option Expr
  | [], _ => none
  | (k, v) :: rest, key => if key = k then some v else getVar rest key

/-- Modelled from the spec: `BaseModel.update` merges the submodels' variable
dictionaries into this model's mapping, later submodels overriding earlier
ones (Python `dict.update` semantics). -/
def dictUpdate (d e : VarMap) : VarMap := e ++ d

/-- The variables mapping after `self.update(loqs_model, conc_model)`:
both submodel dictionaries merged into the (empty) own mapping. -/
def mergedVars (loqsVars concVars : VarMap) : VarMap :=
  dictUpdate (dictUpdate [] loqsVars) concVars

/-- Modelled from the spec: `pybamm.ParameterValues`, "a parameter-value
table loader reading a CSV at a fixed path" together with an override
mapping; recorded symbolically by its two arguments. -/
structure ParameterValues where
  csvPath : String
  overrides : List (String × Int)
deriving DecidableEq, Repr

/-- The resulting model object: its variables mapping and its default
parameter values (the two pieces of state `composite.py` assigns). -/
structure CompositeModel where
  «variables» : VarMap
  default_parameter_values : ParameterValues
deriving DecidableEq, Repr

/- Independent variables (lines 69-71 of composite.py). -/

def xn : Expr := .spatialVar "x" ["negative electrode"]

def xs : Expr := .spatialVar "x" ["separator"]

def xp : Expr := .spatialVar "x" ["positive electrode"]

/- Parameters (lines 74-77): opaque named parameters of the framework. -/

def ln : Expr := .param "ln"

def ls : Expr := .param "ls"

def lp : Expr := .param "lp"

def Cd : Expr := .param "Cd"

/-- `pybamm.standard_parameters_lead_acid.current_with_time` (line 79). -/
def icell : Expr := .param "current_with_time"

/- Functions (lines 80-89): framework parameter functions applied to
expressions, kept as opaque named applications. -/

def kappa (c e : Expr) : Expr := .fn2 "kappa" c e

def chi (c : Expr) : Expr := .fn1 "chi" c

def j0n (c : Expr) : Expr := .fn1 "j0n" c

def j0p (c : Expr) : Expr := .fn1 "j0p" c

def dUPbdc (c : Expr) : Expr := .fn1 "dUPbdc" c

def dUPbO2dc (c : Expr) : Expr := .fn1 "dUPbO2dc" c

/-- `pybamm.Function(np.tanh, e)` (lines 98 and 120). -/
def tanhF (e : Expr) : Expr := .func "tanh" e

/-- First-order concentration, line 92: `c1 = (c - c0) / Cd`. -/
def c1 (c c0 : Expr) : Expr := (c - c0) / Cd

/-- Line 95: `cbar_1n = pybamm.Integral(c1, xn) / ln`. -/
def cbar_1n (c c0 : Expr) : Expr := .integral (c1 c c0) xn / ln

/-- Line 96: `j0bar_1n = pybamm.Integral(j0_1n, xn) / ln` with `j0_1n = 1`. -/
def j0bar_1n : Expr := .integral 1 xn / ln

/-- Lines 97-102: the integration constant `An`. -/
def An (c c0 eps_0n eta_0n : Expr) : Expr :=
  j0bar_1n * tanhF eta_0n / j0n c0
    - dUPbdc c0 * cbar_1n c c0
    - chi c0 / c0 * cbar_1n c c0
    + icell * ln / (6 * kappa c0 eps_0n)

/-- Line 104: first-order potential in the negative electrode. -/
def Phi_1n (c0 eps_0n : Expr) : Expr :=
  -icell * xn ^ 2 / (2 * ln * kappa c0 eps_0n)

/-- Line 105: first-order potential in the separator. -/
def Phi_1s (c0 eps_0n eps_0s : Expr) : Expr :=
  -icell * ((xs - ln) / kappa c0 eps_0s + ln / (2 * kappa c0 eps_0n))

/-- Lines 106-110: first-order potential in the positive electrode. -/
def Phi_1p (c0 eps_0n eps_0s eps_0p : Expr) : Expr :=
  -icell
    * (ln / (2 * kappa c0 eps_0n)
      + ls / kappa c0 eps_0s
      + (lp ^ 2 - (1 - xp) ^ 2) / (2 * lp * kappa c0 eps_0p))

/-- Line 111: `Phi1 = chi0 / c0 * c1 + Concatenation(Phi_1n, Phi_1s, Phi_1p) + An`. -/
def Phi1 (c c0 eps_0n eps_0s eps_0p eta_0n : Expr) : Expr :=
  chi c0 / c0 * c1 c c0
    + .concat (Phi_1n c0 eps_0n) (Phi_1s c0 eps_0n eps_0s)
        (Phi_1p c0 eps_0n eps_0s eps_0p)
    + An c c0 eps_0n eta_0n

/-- Line 114: `cbar_1p = pybamm.Integral(c1, xp) / lp`. -/
def cbar_1p (c c0 : Expr) : Expr := .integral (c1 c c0) xp / lp

/-- Line 115: `Phibar_1p = pybamm.Integral(Phi1, xp) / lp`. -/
def Phibar_1p (c c0 eps_0n eps_0s eps_0p eta_0n : Expr) : Expr :=
  .integral (Phi1 c c0 eps_0n eps_0s eps_0p eta_0n) xp / lp

/-- Line 116: `j0bar_1p = pybamm.Integral(j0_1p, xp) / lp` with `j0_1p = 1`. -/
def j0bar_1p : Expr := .integral 1 xp / lp

/-- Lines 117-121: the first-order voltage `V1`. -/
def V1 (c c0 eps_0n eps_0s eps_0p eta_0n eta_0p : Expr) : Expr :=
  Phibar_1p c c0 eps_0n eps_0s eps_0p eta_0n
    + dUPbO2dc c0 * cbar_1p c c0
    - j0bar_1p * tanhF eta_0p / j0p c0

/-- The default parameter values set on line 127-128:
`pybamm.ParameterValues` of the fixed CSV path, with the single override
assigning 1 to the "current scale" entry. -/
def defaultParams : ParameterValues :=
  ⟨"input/parameters/lead-acid/default.csv", [("current scale", 1)]⟩

/-- Lines 68-128 of the constructor, after the variable extraction has
succeeded: builds the derived expressions and the final model object, whose
variables mapping is the fresh dictionary assigned on line 124. -/
def buildComposite (c0 eps_0n eps_0s eps_0p eta_0n eta_0p Phi0 V0 c : Expr) :
    CompositeModel :=
  ⟨[("c", c),
    ("Phi", Phi0 + Cd * Phi1 c c0 eps_0n eps_0s eps_0p eta_0n),
    ("V", V0 + Cd * V1 c c0 eps_0n eps_0s eps_0p eta_0n eta_0p)],
   defaultParams⟩

/-- `Composite.__init__` (lines 45-129). The two submodel variable
dictionaries, and the default parameter set the merge would leave on the
model (modelled from the spec, which states the final assignment "replaces
any default parameter set inherited from the submodels"), stand for the
behaviour of the external framework; the constructor itself takes no
arguments. Each dictionary access is a fallible lookup: a missing key (or an
`eps0` without exactly three children) makes the whole construction fail,
modelling the uncaught propagation of the framework's exception. -/
def compositeInit (loqsVars concVars : VarMap)
    (inheritedDefaults : ParameterValues) : Option CompositeModel :=
  let merged := mergedVars loqsVars concVars
  (getVar merged "c0").bind fun c0 =>
  (getVar merged "eps0").bind fun eps0 =>
  (children3 eps0).bind fun eps3 =>
  (getVar merged "eta_0n").bind fun eta_0n =>
  (getVar merged "eta_0p").bind fun eta_0p =>
  (getVar merged "Phi0").bind fun Phi0 =>
  (getVar merged "V0").bind fun V0 =>
  (getVar merged "c").bind fun c =>
  some (buildComposite c0 eps3.1 eps3.2.1 eps3.2.2 eta_0n eta_0p Phi0 V0 c)

/-- Modelled from the spec: a semantic reading of the expression trees, for
checking algebraic identities between them. Arithmetic nodes are evaluated
over ℚ; every other node (scalar apart) is an atom whose value the
environment assigns. -/
def evalExpr (env : Expr → ℚ) : Expr → ℚ
  | .scalar k => (k : ℚ)
  | .add a b => evalExpr env a + evalExpr env b
  | .sub a b => evalExpr env a - evalExpr env b
  | .mul a b => evalExpr env a * evalExpr env b
  | .div a b => evalExpr env a / evalExpr env b
  | .neg a => -evalExpr env a
  | e => env e

/-- The operations `composite.py` defines on the `Composite` class: the
constructor is the only method in the file. An operation carries the
external framework behaviour it runs against. -/
inductive CompositeOp where
  | initOp : VarMap → VarMap → ParameterValues → CompositeOp

/-- Applying a file-defined operation to an existing model: re-running the
constructor rebuilds the state from the framework's submodels, ignoring the
prior state of the instance. -/
def applyOp : CompositeOp → CompositeModel → Option CompositeModel
  | .initOp lv cv pd, _ => compositeInit lv cv pd

/- Concrete submodel dictionaries, standing for one possible behaviour of the
external framework, used to exercise the constructor on closed inputs. -/

def c0s : Expr := .param "c0_sub"

def epsns : Expr := .param "eps_sub_n"

def epsss : Expr := .param "eps_sub_s"

def epsps : Expr := .param "eps_sub_p"

def etans : Expr := .param "eta_sub_n"

def etaps : Expr := .param "eta_sub_p"

def Phi0s : Expr := .param "Phi0_sub"

def V0s : Expr := .param "V0_sub"

def cs : Expr := .param "c_sub"

def exLoqsVars : VarMap :=
  [("c0", c0s),
   ("eps0", .concat epsns epsss epsps),
   ("eta_0n", etans),
   ("eta_0p", etaps),
   ("Phi0", Phi0s),
   ("V0", V0s)]

def exConcVars : VarMap := [("c", cs)]

/-- An arbitrary default parameter set left by the submodels. -/
def exInherited : ParameterValues := ⟨"submodel.csv", [("current scale", 8)]⟩

/-- The model the constructor produces on the concrete example dictionaries. -/
def exModel : CompositeModel :=
  buildComposite c0s epsns epsss epsps etans etaps Phi0s V0s cs

/-- A constant environment for evaluating expressions on closed inputs. -/
def exEnv : Expr → ℚ := fun _ => 1

/-- Inversion for a successful construction: it succeeds exactly when every
extracted key is present in the merged dictionary and `eps0` has three
children, and then the result is `buildComposite` of the extracted parts. -/
theorem compositeInit_eq_some {lv cv : VarMap} {pd : ParameterValues}
    {m : CompositeModel} :
    compositeInit lv cv pd = some m ↔
      ∃ c0 eps0 eps3 eta_0n eta_0p Phi0 V0 c,
        getVar (mergedVars lv cv) "c0" = some c0 ∧
        getVar (mergedVars lv cv) "eps0" = some eps0 ∧
        children3 eps0 = some eps3 ∧
        getVar (mergedVars lv cv) "eta_0n" = some eta_0n ∧
        getVar (mergedVars lv cv) "eta_0p" = some eta_0p ∧
        getVar (mergedVars lv cv) "Phi0" = some Phi0 ∧
        getVar (mergedVars lv cv) "V0" = some V0 ∧
        getVar (mergedVars lv cv) "c" = some c ∧
        m = buildComposite c0 eps3.1 eps3.2.1 eps3.2.2 eta_0n eta_0p Phi0 V0 c := by
  simp only [compositeInit, Option.bind_eq_some, Option.some.injEq]
  constructor
  · rintro ⟨c0, h1, eps0, h2, eps3, h3, a, h4, b, h5, p, h6, v, h7, c, h8, hm⟩
    exact ⟨c0, eps0, eps3, a, b, p, v, c, h1, h2, h3, h4, h5, h6, h7, h8, hm.symm⟩
  · rintro ⟨c0, eps0, eps3, a, b, p, v, c, h1, h2, h3, h4, h5, h6, h7, h8, hm⟩
    exact ⟨c0, h1, eps0, h2, eps3, h3, a, h4, b, h5, p, h6, v, h7, c, h8, hm.symm⟩

/-- C1: after construction, the expression stored under key "V" equals
`V0 + Cd * V1`, where `V1 = Phibar_1p + dUPbO2dc(c0) * cbar_1p
- j0bar_1p * tanh(eta_0p) / j0_0p`, and each barred quantity is the
integral of the corresponding first-order quantity (`c1`, `Phi1`, `j0_1p = 1`)
over the positive-electrode spatial variable `xp`, divided by `lp`. -/
theorem composite_V_formula
    (lv cv : VarMap) (pd : ParameterValues) (m : CompositeModel)
    (c0 eps0 eps_0n eps_0s eps_0p eta_0n eta_0p Phi0 V0 c : Expr)
    (hinit : compositeInit lv cv pd = some m)
    (hc0 : getVar (mergedVars lv cv) "c0" = some c0)
    (heps0 : getVar (mergedVars lv cv) "eps0" = some eps0)
    (hch : children3 eps0 = some (eps_0n, eps_0s, eps_0p))
    (hetan : getVar (mergedVars lv cv) "eta_0n" = some eta_0n)
    (hetap : getVar (mergedVars lv cv) "eta_0p" = some eta_0p)
    (hPhi0 : getVar (mergedVars lv cv) "Phi0" = some Phi0)
    (hV0 : getVar (mergedVars lv cv) "V0" = some V0)
    (hc : getVar (mergedVars lv cv) "c" = some c) :
    getVar m.variables "V" =
      some (V0 + Cd *
        (Expr.integral (Phi1 c c0 eps_0n eps_0s eps_0p eta_0n) xp / lp
          + dUPbO2dc c0 * (Expr.integral (c1 c c0) xp / lp)
          - Expr.integral 1 xp / lp * tanhF eta_0p / j0p c0)) := by
  obtain ⟨c0', eps0', eps3', a', b', p', v', c', h1, h2, h3, h4, h5, h6, h7, h8,
    rfl⟩ := compositeInit_eq_some.mp hinit
  obtain rfl : c0' = c0 := Option.some.inj (h1.symm.trans hc0)
  obtain rfl : eps0' = eps0 := Option.some.inj (h2.symm.trans heps0)
  obtain rfl : eps3' = (eps_0n, eps_0s, eps_0p) :=
    Option.some.inj (h3.symm.trans hch)
  obtain rfl : a' = eta_0n := Option.some.inj (h4.symm.trans hetan)
  obtain rfl : b' = eta_0p := Option.some.inj (h5.symm.trans hetap)
  obtain rfl : p' = Phi0 := Option.some.inj (h6.symm.trans hPhi0)
  obtain rfl : v' = V0 := Option.some.inj (h7.symm.trans hV0)
  obtain rfl : c' = c := Option.some.inj (h8.symm.trans hc)
  rfl

/-- C1 witness: the formula for "V", instantiated on the concrete example
dictionaries. -/
theorem composite_V_formula_witness :
    getVar exModel.variables "V" =
      some (V0s + Cd * V1 cs c0s epsns epsss epsps etans etaps) :=
  composite_V_formula exLoqsVars exConcVars exInherited exModel
    c0s (.concat epsns epsss epsps) epsns epsss epsps etans etaps Phi0s V0s cs
    rfl rfl rfl rfl rfl rfl rfl rfl rfl

/-- C2: after construction, the expression stored under key "Phi" equals
`Phi0 + Cd * Phi1`, with `Phi1 = chi0 / c0 * c1
+ Concatenation(Phi_1n, Phi_1s, Phi_1p) + An`, where
`Phi_1n = -icell * xn^2 / (2 * ln * kappa_0n)`,
`Phi_1s = -icell * ((xs - ln) / kappa_0s + ln / (2 * kappa_0n))`,
`Phi_1p = -icell * (ln / (2 * kappa_0n) + ls / kappa_0s
+ (lp^2 - (1 - xp)^2) / (2 * lp * kappa_0p))`, and
`An = j0bar_1n * tanh(eta_0n) / j0_0n - dUPbdc(c0) * cbar_1n
- chi0 / c0 * cbar_1n + icell * ln / (6 * kappa_0n)`. -/
theorem composite_Phi_formula
    (lv cv : VarMap) (pd : ParameterValues) (m : CompositeModel)
    (c0 eps0 eps_0n eps_0s eps_0p eta_0n eta_0p Phi0 V0 c : Expr)
    (hinit : compositeInit lv cv pd = some m)
    (hc0 : getVar (mergedVars lv cv) "c0" = some c0)
    (heps0 : getVar (mergedVars lv cv) "eps0" = some eps0)
    (hch : children3 eps0 = some (eps_0n, eps_0s, eps_0p))
    (hetan : getVar (mergedVars lv cv) "eta_0n" = some eta_0n)
    (hetap : getVar (mergedVars lv cv) "eta_0p" = some eta_0p)
    (hPhi0 : getVar (mergedVars lv cv) "Phi0" = some Phi0)
    (hV0 : getVar (mergedVars lv cv) "V0" = some V0)
    (hc : getVar (mergedVars lv cv) "c" = some c) :
    getVar m.variables "Phi" =
      some (Phi0 + Cd *
        (chi c0 / c0 * c1 c c0
          + Expr.concat
              (-icell * xn ^ 2 / (2 * ln * kappa c0 eps_0n))
              (-icell * ((xs - ln) / kappa c0 eps_0s
                + ln / (2 * kappa c0 eps_0n)))
              (-icell * (ln / (2 * kappa c0 eps_0n)
                + ls / kappa c0 eps_0s
                + (lp ^ 2 - (1 - xp) ^ 2) / (2 * lp * kappa c0 eps_0p)))
          + (Expr.integral 1 xn / ln * tanhF eta_0n / j0n c0
              - dUPbdc c0 * (Expr.integral (c1 c c0) xn / ln)
              - chi c0 / c0 * (Expr.integral (c1 c c0) xn / ln)
              + icell * ln / (6 * kappa c0 eps_0n)))) := by
  obtain ⟨c0', eps0', eps3', a', b', p', v', c', h1, h2, h3, h4, h5, h6, h7, h8,
    rfl⟩ := compositeInit_eq_some.mp hinit
  obtain rfl : c0' = c0 := Option.some.inj (h1.symm.trans hc0)
  obtain rfl : eps0' = eps0 := Option.some.inj (h2.symm.trans heps0)
  obtain rfl : eps3' = (eps_0n, eps_0s, eps_0p) :=
    Option.some.inj (h3.symm.trans hch)
  obtain rfl : a' = eta_0n := Option.some.inj (h4.symm.trans hetan)
  obtain rfl : b' = eta_0p := Option.some.inj (h5.symm.trans hetap)
  obtain rfl : p' = Phi0 := Option.some.inj (h6.symm.trans hPhi0)
  obtain rfl : v' = V0 := Option.some.inj (h7.symm.trans hV0)
  obtain rfl : c' = c := Option.some.inj (h8.symm.trans hc)
  rfl

/-- C2 witness: the formula for "Phi", instantiated on the concrete example
dictionaries. -/
theorem composite_Phi_formula_witness :
    getVar exModel.variables "Phi" =
      some (Phi0s + Cd * Phi1 cs c0s epsns epsss epsps etans) :=
  composite_Phi_formula exLoqsVars exConcVars exInherited exModel
    c0s (.concat epsns epsss epsps) epsns epsss epsps etans etaps Phi0s V0s cs
    rfl rfl rfl rfl rfl rfl rfl rfl rfl

/-- C3 counterexample: on concrete submodel dictionaries the construction
succeeds, the merged dictionary contains the submodel key "c0", yet the
resulting model's variables mapping does not: the merged submodel variable
dictionaries are not part of the model after the constructor returns. -/
theorem composite_merged_not_retained :
    getVar (mergedVars exLoqsVars exConcVars) "c0" = some c0s ∧
      compositeInit exLoqsVars exConcVars exInherited = some exModel ∧
      getVar exModel.variables "c0" = none := by
  decide

/-- C3 (amended): the constructor consumes the merged submodel variable
dictionaries to derive the composite quantities and stores the default
parameter set, but the final assignment replaces the merged mapping: the
composite concentration entry "c" is carried over from the merge, the
resulting mapping holds exactly the keys "c", "Phi", "V", and the default
parameter set is the fixed one. -/
theorem composite_init_steps
    (lv cv : VarMap) (pd : ParameterValues) (m : CompositeModel)
    (hinit : compositeInit lv cv pd = some m) :
    (∃ c, getVar (mergedVars lv cv) "c" = some c ∧
        getVar m.variables "c" = some c) ∧
      m.variables.map Prod.fst = ["c", "Phi", "V"] ∧
      m.default_parameter_values = defaultParams := by
  obtain ⟨c0', eps0', eps3', a', b', p', v', c', h1, h2, h3, h4, h5, h6, h7, h8,
    rfl⟩ := compositeInit_eq_some.mp hinit
  exact ⟨⟨c', h8, rfl⟩, rfl, rfl⟩

/-- C3 witness: the amended statement instantiated on the concrete example
dictionaries. -/
theorem composite_init_steps_witness :
    (∃ c, getVar (mergedVars exLoqsVars exConcVars) "c" = some c ∧
        getVar exModel.variables "c" = some c) ∧
      exModel.variables.map Prod.fst = ["c", "Phi", "V"] ∧
      exModel.default_parameter_values = defaultParams :=
  composite_init_steps exLoqsVars exConcVars exInherited exModel rfl

/-- C4: no error handling in the constructor: whenever one of the extracted
variable keys is missing from the merged dictionary, the construction as a
whole fails, the fault propagating uncaught and untransformed. -/
theorem composite_missing_key_fails
    (lv cv : VarMap) (pd : ParameterValues)
    (h : getVar (mergedVars lv cv) "c0" = none ∨
      getVar (mergedVars lv cv) "eps0" = none ∨
      getVar (mergedVars lv cv) "eta_0n" = none ∨
      getVar (mergedVars lv cv) "eta_0p" = none ∨
      getVar (mergedVars lv cv) "Phi0" = none ∨
      getVar (mergedVars lv cv) "V0" = none ∨
      getVar (mergedVars lv cv) "c" = none) :
    compositeInit lv cv pd = none := by
  cases hres : compositeInit lv cv pd with
  | none => rfl
  | some m =>
    obtain ⟨c0', eps0', eps3', a', b', p', v', c', h1, h2, h3, h4, h5, h6, h7,
      h8, rfl⟩ := compositeInit_eq_some.mp hres
    rcases h with h | h | h | h | h | h | h <;> simp_all

/-- C4 witness: with empty submodel dictionaries every key is missing and
the construction fails. -/
theorem composite_missing_key_fails_witness :
    (getVar (mergedVars [] []) "c0" = none ∨
      getVar (mergedVars [] []) "eps0" = none ∨
      getVar (mergedVars [] []) "eta_0n" = none ∨
      getVar (mergedVars [] []) "eta_0p" = none ∨
      getVar (mergedVars [] []) "Phi0" = none ∨
      getVar (mergedVars [] []) "V0" = none ∨
      getVar (mergedVars [] []) "c" = none) ∧
      compositeInit [] [] exInherited = none :=
  ⟨Or.inl rfl, composite_missing_key_fails [] [] exInherited (Or.inl rfl)⟩

/-- C5: the file defines no operation that mutates a constructed model: its
only method is the constructor, and running it against the same external
framework behaviour returns the model unchanged, variables mapping and all
expressions included. -/
theorem composite_no_mutation
    (op : CompositeOp) (m : CompositeModel) (lv cv : VarMap)
    (pd : ParameterValues)
    (hop : op = .initOp lv cv pd)
    (hm : compositeInit lv cv pd = some m) :
    applyOp op m = some m := by
  subst hop
  simpa [applyOp] using hm

/-- C5 witness: applying the one file-defined operation to the concretely
constructed model leaves it unchanged. -/
theorem composite_no_mutation_witness :
    applyOp (.initOp exLoqsVars exConcVars exInherited) exModel =
      some exModel :=
  composite_no_mutation (.initOp exLoqsVars exConcVars exInherited) exModel
    exLoqsVars exConcVars exInherited rfl rfl

/-- C6: construction is deterministic: two runs of the constructor against
the same external submodel behaviour (even with different inherited default
parameter sets) produce structurally identical variables mappings and
default parameter values. -/
theorem composite_deterministic
    (lv cv : VarMap) (pd pd' : ParameterValues) (m m' : CompositeModel)
    (h : compositeInit lv cv pd = some m)
    (h' : compositeInit lv cv pd' = some m') :
    m.variables = m'.variables ∧
      m.default_parameter_values = m'.default_parameter_values := by
  have heq : compositeInit lv cv pd = compositeInit lv cv pd' := rfl
  rw [h, h'] at heq
  cases Option.some.inj heq
  exact ⟨rfl, rfl⟩

/-- C6 witness: two concrete runs with different inherited defaults agree. -/
theorem composite_deterministic_witness :
    exModel.variables = exModel.variables ∧
      exModel.default_parameter_values = exModel.default_parameter_values :=
  composite_deterministic exLoqsVars exConcVars exInherited defaultParams
    exModel exModel rfl rfl

/-- C7: after construction the default parameter values are the table loaded
from the fixed CSV path with the single override assigning 1 to the
"current scale" entry, whatever default parameter set the submodels left. -/
theorem composite_default_parameter_values_fixed
    (lv cv : VarMap) (pd : ParameterValues) (m : CompositeModel)
    (hinit : compositeInit lv cv pd = some m) :
    m.default_parameter_values =
      ⟨"input/parameters/lead-acid/default.csv", [("current scale", 1)]⟩ := by
  obtain ⟨c0', eps0', eps3', a', b', p', v', c', h1, h2, h3, h4, h5, h6, h7, h8,
    rfl⟩ := compositeInit_eq_some.mp hinit
  rfl

/-- C7 witness: the fixed default parameter set, on the concrete example. -/
theorem composite_default_parameter_values_fixed_witness :
    exModel.default_parameter_values =
      ⟨"input/parameters/lead-acid/default.csv", [("current scale", 1)]⟩ :=
  composite_default_parameter_values_fixed exLoqsVars exConcVars exInherited
    exModel rfl

/-- C8: the final variables mapping holds exactly the keys "c", "Phi" and
"V"; every other key, including each one the submodels contributed, is
absent from it. -/
theorem composite_variables_keys
    (lv cv : VarMap) (pd : ParameterValues) (m : CompositeModel)
    (hinit : compositeInit lv cv pd = some m) :
    m.variables.map Prod.fst = ["c", "Phi", "V"] ∧
      ∀ k : String, k ≠ "c" → k ≠ "Phi" → k ≠ "V" →
        getVar m.variables k = none := by
  obtain ⟨c0', eps0', eps3', a', b', p', v', c', h1, h2, h3, h4, h5, h6, h7, h8,
    rfl⟩ := compositeInit_eq_some.mp hinit
  refine ⟨rfl, ?_⟩
  intro k hk1 hk2 hk3
  simp [buildComposite, getVar, hk1, hk2, hk3]

/-- C8 witness: on the concrete example the submodel keys "c0", "eps0",
"eta_0n", "eta_0p", "Phi0", "V0" are all absent from the final mapping. -/
theorem composite_variables_keys_witness :
    exModel.variables.map Prod.fst = ["c", "Phi", "V"] ∧
      getVar exModel.variables "c0" = none ∧
      getVar exModel.variables "eps0" = none ∧
      getVar exModel.variables "eta_0n" = none ∧
      getVar exModel.variables "eta_0p" = none ∧
      getVar exModel.variables "Phi0" = none ∧
      getVar exModel.variables "V0" = none := by
  have h := composite_variables_keys exLoqsVars exConcVars exInherited
    exModel rfl
  exact ⟨h.1,
    h.2 "c0" (by decide) (by decide) (by decide),
    h.2 "eps0" (by decide) (by decide) (by decide),
    h.2 "eta_0n" (by decide) (by decide) (by decide),
    h.2 "eta_0p" (by decide) (by decide) (by decide),
    h.2 "Phi0" (by decide) (by decide) (by decide),
    h.2 "V0" (by decide) (by decide) (by decide)⟩

/-- C9: the first-order concentration is `c1 = (c - c0) / Cd`, so that under
any semantic reading in which `Cd` is nonzero the round-trip identity
`c0 + Cd * c1 = c` holds. -/
theorem composite_c1_roundtrip
    (env : Expr → ℚ) (c c0 : Expr)
    (h : evalExpr env Cd ≠ 0) :
    evalExpr env (c0 + Cd * c1 c c0) = evalExpr env c := by
  show evalExpr env
    (Expr.add c0 (Expr.mul Cd (Expr.div (Expr.sub c c0) Cd))) = evalExpr env c
  have h' : env (Expr.param "Cd") ≠ 0 := by simpa [evalExpr, Cd] using h
  simp only [evalExpr]
  field_simp

/-- C9 witness: the round-trip identity at a concrete environment and
concrete expressions. -/
theorem composite_c1_roundtrip_witness :
    evalExpr exEnv Cd ≠ 0 ∧
      evalExpr exEnv (cs + Cd * c1 c0s cs) = evalExpr exEnv c0s :=
  ⟨by simp [evalExpr, exEnv, Cd],
    composite_c1_roundtrip exEnv c0s cs (by simp [evalExpr, exEnv, Cd])⟩

/-- C10: the entry stored under "c" in the final mapping is exactly the
composite concentration extracted from the merged submodel dictionary,
passed through unchanged. -/
theorem composite_c_passthrough
    (lv cv : VarMap) (pd : ParameterValues) (m : CompositeModel)
    (hinit : compositeInit lv cv pd = some m) :
    getVar m.variables "c" = getVar (mergedVars lv cv) "c" := by
  obtain ⟨c0', eps0', eps3', a', b', p', v', c', h1, h2, h3, h4, h5, h6, h7, h8,
    rfl⟩ := compositeInit_eq_some.mp hinit
  rw [h8]
  rfl

/-- C10 witness: on the concrete example the "c" entry of the model is the
submodel's composite concentration. -/
theorem composite_c_passthrough_witness :
    getVar exModel.variables "c" =
      getVar (mergedVars exLoqsVars exConcVars) "c" :=
  composite_c_passthrough exLoqsVars exConcVars exInherited exModel rfl

end LeadAcidComposite
